import Mathlib

/-
Shallow embedding of the client-side pagination/search/rendering layer in
src/blog/static/blog/index.js (a single vanilla-JS file driving a blog page).

Modelling conventions:
- JS string-or-absent fields are `Option String`; `none` stands for a field
  that is absent (or not a string, where the code checks `typeof === 'string'`).
- JS truthiness of such a value: `some s` is truthy iff `s` is non-empty.
- The DOM containers `#featured` and `#post-list` are modelled as lists of
  abstract nodes; purely cosmetic effects (CSS classes, smooth scrolling,
  the result-count status line, pill highlighting) are not part of the state.
- Asynchrony: each `fetch` is split into a synchronous "call" transition that
  issues a request and a "resolve" transition that runs the response handler
  on the state current at response time, exactly as the JS closures do.
  Outstanding requests live in `inFlight`; `issued` is a log of every request
  ever sent, used to count network requests.
-/

namespace Blog

/-- A post record as served by the listing/search endpoints.  Every field is
optional; `none` models an absent or non-string JSON field. -/
structure Post where
  title : Option String := none
  content : Option String := none
  author : Option String := none
  pub_date : Option String := none
  url : Option String := none
  tags : Option String := none
  category : Option String := none
  thumbnail : Option String := none
  thumbnail_small : Option String := none
  image : Option String := none
deriving DecidableEq

/-- JS truthiness of an optional string field: truthy iff present and non-empty. -/
def strTruthy : Option String → Bool
  | some s => s != ""
  | none => false

/-- JS `a || b` on optional string fields: `a` when truthy, else `b`
(returning `b`'s value even when `b` is itself falsy). -/
def jsOr (a b : Option String) : Option String :=
  if strTruthy a then a else b

/-- A DOM node inside the `#featured` or `#post-list` containers.  Cards carry
the post they render and the chosen image `src` (`none` = category
placeholder). -/
inductive Node where
  | featuredCard (p : Post) (img : Option String) : Node
  | regularCard (p : Post) (img : Option String) : Node
  | ghostCard : Node
  | loadingNode (text : String) : Node
  | noResults : Node
  | searchError : Node
  | errorBanner (msg : String) : Node
deriving DecidableEq

/-- Whether a node is one of the invisible ghost/filler cards. -/
def Node.isGhost : Node → Bool
  | .ghostCard => true
  | _ => false

/-- `addGhostCards` (index.js lines 121-169) as a function of the container's
`offsetWidth` and its current child list.  Faithful ordering: `postsCount`
is read from the live child collection BEFORE the existing ghost cards are
removed, exactly as in the source.  The JS cases `cardsPerRow = 0`
(`postsCount % 0` is `NaN`, and `cardsPerRow > 1` fails) and
`cardsPerRow = 1` (`cardsPerRow > 1` fails) both append nothing, collapsed
here into the `cardsPerRow ≤ 1` branch. -/
def addGhostCards (width : Nat) (children : List Node) : List Node :=
  let postsCount := children.length
  let cleaned := children.filter (fun n => !n.isGhost)
  if width = 0 then
    cleaned
  else
    let cardsPerRow := width / 350
    if cardsPerRow ≤ 1 then
      cleaned
    else
      let remainder := postsCount % cardsPerRow
      if remainder = 0 then
        cleaned
      else
        cleaned ++ List.replicate (cardsPerRow - remainder) Node.ghostCard

/-- Strip leading and trailing whitespace from a character list. -/
def trimChars (l : List Char) : List Char :=
  ((l.dropWhile Char.isWhitespace).reverse.dropWhile Char.isWhitespace).reverse

/-- JS `String.prototype.trim`, implemented by structural recursion so that
concrete instances evaluate inside the kernel. -/
def jsTrim (s : String) : String :=
  String.mk (trimChars s.data)

/-- JS `String.prototype.split` with a one-character separator: always returns
at least one (possibly empty) segment. -/
def splitOnChar (sep : Char) : List Char → List (List Char)
  | [] => [[]]
  | c :: rest =>
    let r := splitOnChar sep rest
    if c = sep then [] :: r
    else
      match r with
      | [] => [[c]]
      | h :: t => (c :: h) :: t

/-- JS `String.prototype.toLowerCase` (ASCII model). -/
def toLowerStr (s : String) : String :=
  String.mk (s.data.map Char.toLower)

/-- First comma-separated entry of a tags string, as in
`postData.tags.split(',')[0]?.trim()`. -/
def firstTag (tags : String) : String :=
  String.mk (trimChars ((splitOnChar ',' tags.data).headD []))

/-- The tags fallback of `getPostCategory`: when the `tags` field is a
non-blank string and its first comma entry trims to something non-empty,
that entry; else the literal `"post"`. -/
def tagsCategory (tags : Option String) : String :=
  match tags with
  | some t =>
    if jsTrim t != "" then
      if firstTag t != "" then firstTag t else "post"
    else "post"
  | none => "post"

/-- `getPostCategory` (index.js lines 71-94): the trimmed `category` field when
it is a string with non-blank content, else the tags fallback. -/
def getPostCategory (p : Post) : String :=
  match p.category with
  | some c => if jsTrim c != "" then jsTrim c else tagsCategory p.tags
  | none => tagsCategory p.tags

/-- A value the object-literal lookup `displayNames[key]` can produce: one of
the six own string entries (or the title-cased fallback string), or a truthy
non-string object inherited from `Object.prototype`.  The inherited
properties reachable through an already-lower-cased key are exactly the
all-lowercase ones, `constructor` (the `Object` function) and `__proto__`
(the prototype object); every other inherited name (`toString`, `valueOf`,
...) contains an upper-case letter and can never equal
`category.toLowerCase()`. -/
inductive CategoryDisplay where
  | text (s : String) : CategoryDisplay
  | protoObject (key : String) : CategoryDisplay
deriving DecidableEq

/-- The `displayNames[...]` lookup of `getCategoryDisplayText`, prototype
chain included: the six own entries, the two inherited truthy objects, and
`none` (JS `undefined`, falsy) for everything else. -/
def displayNames (c : String) : Option CategoryDisplay :=
  if c = "tech" then some (CategoryDisplay.text "Tech")
  else if c = "thoughts" then some (CategoryDisplay.text "Thoughts")
  else if c = "stories" then some (CategoryDisplay.text "Stories")
  else if c = "career" then some (CategoryDisplay.text "Career")
  else if c = "project" then some (CategoryDisplay.text "Project")
  else if c = "post" then some (CategoryDisplay.text "Post")
  else if c = "constructor" then some (CategoryDisplay.protoObject "constructor")
  else if c = "__proto__" then some (CategoryDisplay.protoObject "__proto__")
  else none

/-- Generic title-casing used by `getCategoryDisplayText` for unknown
categories: `category.charAt(0).toUpperCase() + category.slice(1).toLowerCase()`. -/
def titleCaseGeneric (c : String) : String :=
  match c.data with
  | [] => ""
  | ch :: rest => String.mk (ch.toUpper :: (rest.map Char.toLower))

/-- `getCategoryDisplayText` (index.js lines 97-118).  A `none` argument models
a missing or non-string category (`!category || typeof category !== 'string'`).
Any truthy lookup result — an own string entry or an inherited object — is
returned by the `||` as-is; only the falsy `undefined` falls through to the
generic title-casing. -/
def getCategoryDisplayText (category : Option String) : CategoryDisplay :=
  match category with
  | none => CategoryDisplay.text "Post"
  | some c =>
    if c = "" then CategoryDisplay.text "Post"
    else
      match displayNames (toLowerStr c) with
      | some d => d
      | none => CategoryDisplay.text (titleCaseGeneric c)

/-- `createFeaturedPost` (index.js lines 172-310), reduced to the rendered
node: image `src` is `thumbnail || image` for index 0 and
`thumbnail_small || thumbnail || image` otherwise, guarded by
`postData.thumbnail || postData.image`; otherwise a category placeholder
(`img = none`). -/
def createFeaturedPost (p : Post) (index : Nat) : Node :=
  if strTruthy (jsOr p.thumbnail p.image) then
    Node.featuredCard p
      (if index = 0 then jsOr p.thumbnail p.image
       else jsOr p.thumbnail_small (jsOr p.thumbnail p.image))
  else
    Node.featuredCard p none

/-- `createRegularPost` (index.js lines 313-456), reduced to the rendered node:
image `src` is `thumbnail_small || thumbnail || image` when that chain is
truthy, else a category placeholder. -/
def createRegularPost (p : Post) : Node :=
  if strTruthy (jsOr p.thumbnail_small (jsOr p.thumbnail p.image)) then
    Node.regularCard p (jsOr p.thumbnail_small (jsOr p.thumbnail p.image))
  else
    Node.regularCard p none

/- ------------------------------------------------------------------ -/
/- JS-value model for the argument normalization of loadSearchResults. -/
/- ------------------------------------------------------------------ -/

/-- A JavaScript value, as far as the argument normalization of
`loadSearchResults` can observe it.  Numbers are rationals (`Number.isInteger`
holds iff the denominator is 1; the `NaN` produced by `undefined + 1` is
modelled by `undef` itself, which also fails `Number.isInteger`). -/
inductive JSVal where
  | str (s : String) : JSVal
  | num (q : ℚ) : JSVal
  | boolean (b : Bool) : JSVal
  | null : JSVal
  | undef : JSVal
deriving DecidableEq

/-- JS falsiness of a value. -/
def JSVal.falsy : JSVal → Bool
  | .str s => s = ""
  | .num q => q = 0
  | .boolean b => !b
  | .null => true
  | .undef => true

/-- JS `String(v)` coercion (number rendering simplified to the reduced
fraction; only its use on truthy values matters to the code). -/
def JSVal.toStr : JSVal → String
  | .str s => s
  | .num q => if q.den = 1 then toString q.num else toString q.num ++ "/" ++ toString q.den
  | .boolean b => if b then "true" else "false"
  | .null => "null"
  | .undef => "undefined"

/-- Lines 758-760: `if (typeof query !== 'string') query = String(query || '')`.
A string argument is kept verbatim; anything else is coerced, with falsy
values becoming the empty string first. -/
def coerceQuery : JSVal → String
  | .str s => s
  | v => if v.falsy then "" else v.toStr

/-- Lines 762-764: `if (!Number.isInteger(page) || page < 1) page = 1`. -/
def coercePage : JSVal → Int
  | .num q => if q.den = 1 ∧ 1 ≤ q then q.num else 1
  | _ => 1

/-- A hexadecimal digit character (0-9, A-F). -/
def hexDigit (n : Nat) : Char :=
  if n < 10 then Char.ofNat (48 + n) else Char.ofNat (55 + n)

/-- Characters `encodeURIComponent` leaves unescaped. -/
def uriUnreserved (c : Char) : Bool :=
  c.isAlphanum || c = '-' || c = '_' || c = '.' || c = '!' || c = '~' ||
  c = '*' || c = '(' || c = ')'

/-- Simplified (code-point, ASCII-oriented) model of the `encodeURIComponent`
builtin: unreserved characters pass through, others are percent-escaped. -/
def encodeURIComponent (s : String) : String :=
  s.data.foldl
    (fun acc c =>
      if uriUnreserved c then acc.push c
      else acc ++ "%" ++ String.mk [hexDigit (c.toNat / 16 % 16), hexDigit (c.toNat % 16)])
    ""

/-- The request `loadSearchResults` builds, separated into the page query
parameter and the optional `search` parameter. -/
structure SearchRequestUrl where
  page : Int
  searchParam : Option String
deriving DecidableEq

/-- Lines 756-768 of index.js: normalize the arguments and build the request
URL `/blog/search/?page=<page>` with `&search=<encoded query>` appended
exactly when the (coerced) query is non-empty. -/
def buildSearchRequest (query page : JSVal) : SearchRequestUrl :=
  let q := coerceQuery query
  let p := coercePage page
  { page := p
    searchParam := if q != "" then some (encodeURIComponent q) else none }

/- ------------------------------------------------------------- -/
/- The pagination / search state machine of index.js.             -/
/- ------------------------------------------------------------- -/

/-- Which endpoint a network request targets. -/
inductive Stream where
  | listing : Stream
  | search : Stream
deriving DecidableEq

/-- An outstanding (or logged) network request: the stream, the `page` query
parameter and, for search requests, the query string (listing requests carry
`""`). -/
structure Request where
  stream : Stream
  page : Nat
  query : String
deriving DecidableEq

/-- A page response body: `blog_posts` is `none` when absent or not an array,
`has_next` is the boolean coercion of the field. -/
structure PageResponse where
  blog_posts : Option (List Post) := none
  has_next : Bool := false
  total_results : Option Nat := none
deriving DecidableEq

/-- Outcome of a fetch: `ok data` for a 2xx response with parsed JSON body,
`error` for a non-2xx status, a network failure, or a JSON parse failure
(all of which land in the same `catch`). -/
inductive FetchOutcome where
  | ok (data : PageResponse) : FetchOutcome
  | error : FetchOutcome
deriving DecidableEq

/-- The mutable state of index.js: the module globals (lines 1-8), the
`window.*` cursor fields used by the search stream (undefined until first
written, hence `Option`), the two DOM containers, small pieces of UI state,
and the request bookkeeping described in the header comment.
`containerWidth` is the `offsetWidth` the ghost-card filler reads.
`pendingChecks` records the delays (ms) of the `checkIfMoreContentNeeded`
timers scheduled so far. -/
structure AppState where
  page_num : Nat
  isLoading : Bool
  currentSearchQuery : String
  currentTag : String
  isSearchMode : Bool
  windowHasNext : Option Bool
  windowCurrentPage : Option Nat
  featured : List Node
  postList : List Node
  searchInputValue : String
  sectionTitle : String
  containerWidth : Nat
  inFlight : List Request
  issued : List Request
  pendingChecks : List Nat
deriving DecidableEq

/-- The module state right after the globals are initialized (lines 1-8),
for a post list of the given measured width. -/
def initState (width : Nat) : AppState :=
  { page_num := 1
    isLoading := false
    currentSearchQuery := ""
    currentTag := ""
    isSearchMode := false
    windowHasNext := none
    windowCurrentPage := none
    featured := []
    postList := []
    searchInputValue := ""
    sectionTitle := "All Posts"
    containerWidth := width
    inFlight := []
    issued := []
    pendingChecks := [] }

/-- Delay (ms) with which every load path schedules
`checkIfMoreContentNeeded` (the `setTimeout(..., 100)` in the `finally` of
`loadImages` and in the success handler of `loadSearchResults`). -/
def contentCheckDelayMs : Nat := 100

/-- The settle delay (ms) of the `setTimeout` inside
`checkIfMoreContentNeeded` (line 1068). -/
def settleDelayMs : Nat := 500

/-- Append a request to both the in-flight multiset and the issue log. -/
def issueRequest (st : AppState) (r : Request) : AppState :=
  { st with inFlight := st.inFlight ++ [r], issued := st.issued ++ [r] }

/-- The synchronous prefix of `loadImages` (lines 508-521): no-op while
`isLoading`, else set `isLoading` and issue the listing fetch for the
current `page_num`.  The rest of the function runs at response time
(`loadImagesResolve`). -/
def loadImagesStart (st : AppState) : AppState :=
  if st.isLoading then st
  else issueRequest { st with isLoading := true } ⟨Stream.listing, st.page_num, ""⟩

/-- Whether `data.blog_posts && Array.isArray(data.blog_posts) &&
data.blog_posts.length > 0` holds (an empty array is truthy in JS but fails
the length check; a non-array field is `none` here). -/
def hasPosts (data : PageResponse) : Bool :=
  match data.blog_posts with
  | some ps => 0 < ps.length
  | none => false

/-- `featuredPosts.forEach((post, index) => createFeaturedPost(post, index))`:
render a list of posts as featured cards, indexed from `i`. -/
def renderFeaturedFrom : Nat → List Post → List Node
  | _, [] => []
  | i, p :: rest => createFeaturedPost p i :: renderFeaturedFrom (i + 1) rest

/-- The rendering section of `loadImages` (lines 536-586), evaluated against
the state current at response time: page 1 clears `#featured`, renders the
first three posts as featured cards and appends the rest (if any) as regular
cards followed by a ghost-card pass; pages > 1 append all posts as regular
cards followed by a ghost-card pass. -/
def renderListing (st : AppState) (data : PageResponse) : AppState :=
  if st.page_num = 1 ∧ hasPosts data then
    let posts := data.blog_posts.getD []
    let st := { st with featured := renderFeaturedFrom 0 (posts.take 3) }
    if 3 < posts.length then
      let newList := st.postList ++ (posts.drop 3).map createRegularPost
      { st with postList := addGhostCards st.containerWidth newList }
    else st
  else if 1 < st.page_num ∧ hasPosts data then
    let newList := st.postList ++ (data.blog_posts.getD []).map createRegularPost
    { st with postList := addGhostCards st.containerWidth newList }
  else st

/-- The `finally` block of `loadImages` (lines 593-604): reset `isLoading`
and schedule `checkIfMoreContentNeeded` after 100ms.  Runs on every exit
path, the early `return` included. -/
def loadImagesFinally (st : AppState) : AppState :=
  { st with isLoading := false,
            pendingChecks := st.pendingChecks ++ [contentCheckDelayMs] }

/-- The response handler of `loadImages` (lines 523-604), resolving the given
outstanding request with the given outcome.  On error (non-2xx, network, or
JSON failure) the `catch` appends an error banner to `#post-list`
(`showErrorMessage`, lines 26-55).  On success: the exhaustion early-return
when `has_next` is falsy and the current `page_num` exceeds 1; otherwise
render and then `page_num += 1`.  The `finally` runs in every case. -/
def loadImagesResolve (st : AppState) (req : Request) (outcome : FetchOutcome) : AppState :=
  let st := { st with inFlight := st.inFlight.erase req }
  match outcome with
  | .error =>
    loadImagesFinally
      { st with postList :=
          st.postList ++ [Node.errorBanner "Error loading blog posts. Please try refreshing the page."] }
  | .ok data =>
    if !data.has_next ∧ 1 < st.page_num then
      loadImagesFinally st
    else
      let st := renderListing st data
      loadImagesFinally { st with page_num := st.page_num + 1 }

/-- The body of `loadSearchResults` up to the `fetch` call (lines 756-773):
normalize the arguments (the machine is only ever called with a string query
and a `Nat` page, so only the `page < 1` clamp is observable here) and issue
the search request.  Crucially, this function neither checks nor sets
`isLoading`. -/
def loadSearchResultsCall (st : AppState) (query : String) (page : Nat) : AppState :=
  let page := if page < 1 then 1 else page
  issueRequest st ⟨Stream.search, page, query⟩

/-- `displaySearchResults` (lines 828-862): replace the post list; an empty
(or non-array) result shows the no-results placeholder, otherwise the posts
render as regular cards followed by a ghost-card pass. -/
def displaySearchResults (st : AppState) (posts : List Post) : AppState :=
  if posts.length = 0 then
    { st with postList := [Node.noResults] }
  else
    { st with postList := addGhostCards st.containerWidth (posts.map createRegularPost) }

/-- `appendSearchResults` (lines 864-891): append the posts as regular cards
followed by a ghost-card pass. -/
def appendSearchResults (st : AppState) (posts : List Post) : AppState :=
  let newList := st.postList ++ posts.map createRegularPost
  { st with postList := addGhostCards st.containerWidth newList }

/-- The response handlers of `loadSearchResults` (lines 778-818), resolving
the given outstanding search request.  The success handler uses the `page`
captured at request time to pick replace-vs-append, stores the cursor into
`window.hasNext` / `window.currentPage`, resets `isLoading`, and schedules a
content check; it performs no mode or query relevance check.  The failure
handler shows the search-error placeholder and resets `isLoading`. -/
def searchResolve (st : AppState) (req : Request) (outcome : FetchOutcome) : AppState :=
  let st := { st with inFlight := st.inFlight.erase req }
  match outcome with
  | .error =>
    { st with postList := [Node.searchError], isLoading := false }
  | .ok data =>
    let st :=
      if req.page = 1 then displaySearchResults st (data.blog_posts.getD [])
      else appendSearchResults st (data.blog_posts.getD [])
    { st with windowHasNext := some data.has_next,
              windowCurrentPage := some req.page,
              isLoading := false,
              pendingChecks := st.pendingChecks ++ [contentCheckDelayMs] }

/-- `performSearch` (lines 714-753).  The query is stored as
`currentSearchQuery`/`currentTag` untrimmed; search mode holds iff it has
positive length.  A non-empty query shows the searching placeholder, updates
the section title, and issues the page-1 search fetch (without touching
`isLoading`).  An empty query leaves search mode: `page_num` is reset to 1,
both containers are cleared and `loadImages` is invoked; the `window.*`
cursors, search input, and section title are left as they were. -/
def performSearch (st : AppState) (query : String) : AppState :=
  let st := { st with currentSearchQuery := query, currentTag := query,
                      isSearchMode := 0 < query.length }
  if 0 < query.length then
    let st := { st with
      sectionTitle := "Search Results for \"" ++ query ++ "\"",
      postList := [Node.loadingNode "Searching"] }
    loadSearchResultsCall st query 1
  else
    loadImagesStart { st with page_num := 1, featured := [], postList := [] }

/-- `filterByTag` (lines 459-505): ignore blank tags; otherwise put the tag
into the search box, enter search mode with query = tag, retitle the
section, show the tag-searching placeholder and issue the page-1 search
fetch (again without touching `isLoading`). -/
def filterByTag (st : AppState) (tagName : String) : AppState :=
  if tagName = "" then st
  else
    let st := { st with
      searchInputValue := tagName,
      currentSearchQuery := tagName,
      currentTag := tagName,
      isSearchMode := true,
      sectionTitle := "Posts tagged \"" ++ tagName ++ "\"",
      postList := [Node.loadingNode "Searching by tag"] }
    loadSearchResultsCall st tagName 1

/-- `clearSearch` (lines 914-978): clear the search box, reset all search and
pagination state (`page_num := 1`, cursors `hasNext := true`,
`currentPage := 1`), clear both containers, restore the section title, and
reload the listing via `loadImages`. -/
def clearSearch (st : AppState) : AppState :=
  loadImagesStart
    { st with
      searchInputValue := "",
      page_num := 1,
      currentSearchQuery := "",
      currentTag := "",
      isSearchMode := false,
      windowHasNext := some true,
      windowCurrentPage := some 1,
      featured := [],
      postList := [],
      sectionTitle := "All Posts" }

/-- The page the scroll handler and the auto-fill check request from the
search stream: `window.currentPage + 1`, where an undefined cursor yields
`NaN`, which the normalization in `loadSearchResults` replaces by 1. -/
def nextSearchPage (st : AppState) : Nat :=
  match st.windowCurrentPage with
  | some p => p + 1
  | none => 1

/-- The inner body of `checkIfMoreContentNeeded` (lines 1036-1073), run after
its 500ms settle timer with the measured document and window heights: when
the document produces no scrollbar (tolerance 100px), `window.hasNext` is
truthy and nothing is loading, fetch the next page of the stream matching
the current mode (setting `isLoading` first on the search path; the listing
path re-checks inside `loadImages`). -/
def checkIfMoreContentNeeded (st : AppState) (documentHeight windowHeight : Nat) : AppState :=
  if documentHeight ≤ windowHeight + 100 ∧ st.windowHasNext = some true ∧ !st.isLoading then
    if st.isSearchMode then
      loadSearchResultsCall { st with isLoading := true }
        st.currentSearchQuery (nextSearchPage st)
    else
      loadImagesStart st
  else st

/-- The C2 scenario, after the clear: a page-1 search for "rust" is issued by
`performSearch`, then the user clears search before the response arrives
(`clearSearch` resets the state and starts a listing reload). -/
def c2cleared : AppState := clearSearch (performSearch (initState 0) "rust")

/-- The C2 scenario, after the stale page-1 search response then resolves
with one post. -/
def c2stale : AppState :=
  searchResolve c2cleared ⟨Stream.search, 1, "rust"⟩
    (FetchOutcome.ok { blog_posts := some [{ title := some "Rust post" }],
                       has_next := false, total_results := some 1 })

/-- The C3 scenario: with the listing already on page 2, a `loadImages` cycle
whose response reports `has_next = false`. -/
def c3exhausted : AppState :=
  loadImagesResolve (loadImagesStart { initState 0 with page_num := 2 })
    ⟨Stream.listing, 2, ""⟩
    (FetchOutcome.ok { blog_posts := some [], has_next := false })

/-- The C4 scenario: a page-2 listing response with 200 status whose
`blog_posts` field is not an array. -/
def c4malformed : AppState :=
  loadImagesResolve (loadImagesStart { initState 0 with page_num := 2 })
    ⟨Stream.listing, 2, ""⟩
    (FetchOutcome.ok { blog_posts := none, has_next := true })

/-- The core state a clearing operation determines: paging position, search
query/tag/mode, both containers, the request bookkeeping and the loading
flag. -/
def coreView (st : AppState) :
    Nat × String × String × Bool × List Node × List Node
      × List Request × List Request × Bool :=
  (st.page_num, st.currentSearchQuery, st.currentTag, st.isSearchMode,
   st.featured, st.postList, st.inFlight, st.issued, st.isLoading)

/- ------------------------------------------------------------- -/
/- Theorems.                                                      -/
/- ------------------------------------------------------------- -/

/-- C8 counterexample: for the whitespace-padded category `" career "`,
`getPostCategory` returns the trimmed `"career"`, not the field value
`post.category` itself as the claim states. -/
theorem c8_counterexample :
    getPostCategory { category := some " career " } = "career" ∧
    getPostCategory { category := some " career " } ≠ " career " := by
  decide

/-- C8 (amended): `getPostCategory` returns the TRIMMED `post.category` when
that field is a string with non-whitespace content; else the trimmed first
comma-separated entry of `post.tags` when that trims to something non-empty;
else the literal `"post"`.  `getCategoryDisplayText` maps known categories
case-insensitively through the fixed table (tech→Tech, thoughts→Thoughts,
stories→Stories, career→Career, project→Project, post→Post) and title-cases
an unknown category generically (first character upper-cased, rest
lower-cased) only when its lower-casing is not a property inherited from
`Object.prototype`: for the all-lowercase inherited keys `constructor` and
`__proto__` the object-literal lookup yields the truthy inherited object,
which the function returns instead of a title-cased string. -/
theorem c8_category_resolution :
    (∀ (p : Post) (c : String), p.category = some c → jsTrim c ≠ "" →
      getPostCategory p = jsTrim c) ∧
    (∀ (p : Post) (t : String),
      (p.category = none ∨ ∃ c, p.category = some c ∧ jsTrim c = "") →
      p.tags = some t → jsTrim t ≠ "" → firstTag t ≠ "" →
      getPostCategory p = firstTag t) ∧
    (∀ (p : Post),
      (p.category = none ∨ ∃ c, p.category = some c ∧ jsTrim c = "") →
      (p.tags = none ∨ ∃ t, p.tags = some t ∧ firstTag t = "") →
      getPostCategory p = "post") ∧
    (getCategoryDisplayText (some "tech") = CategoryDisplay.text "Tech" ∧
     getCategoryDisplayText (some "thoughts") = CategoryDisplay.text "Thoughts" ∧
     getCategoryDisplayText (some "stories") = CategoryDisplay.text "Stories" ∧
     getCategoryDisplayText (some "career") = CategoryDisplay.text "Career" ∧
     getCategoryDisplayText (some "project") = CategoryDisplay.text "Project" ∧
     getCategoryDisplayText (some "post") = CategoryDisplay.text "Post") ∧
    (∀ (c : String), c ≠ "" → displayNames (toLowerStr c) = none →
      getCategoryDisplayText (some c) = CategoryDisplay.text (titleCaseGeneric c)) ∧
    (getCategoryDisplayText (some "constructor")
        = CategoryDisplay.protoObject "constructor" ∧
     getCategoryDisplayText (some "Constructor")
        = CategoryDisplay.protoObject "constructor" ∧
     getCategoryDisplayText (some "__proto__")
        = CategoryDisplay.protoObject "__proto__") := by
  refine ⟨?_, ?_, ?_, by decide, ?_, by decide⟩
  · intro p c hc ht
    simp [getPostCategory, hc, ht]
  · intro p t hcat htags htrim hfirst
    have hbody : tagsCategory p.tags = firstTag t := by
      simp [tagsCategory, htags, htrim, hfirst]
    rcases hcat with h | ⟨c, hc, hct⟩
    · simpa [getPostCategory, h] using hbody
    · simpa [getPostCategory, hc, hct] using hbody
  · intro p hcat htags
    have hbody : tagsCategory p.tags = "post" := by
      rcases htags with h | ⟨t, ht, htf⟩
      · simp [tagsCategory, h]
      · simp only [tagsCategory, ht, htf]
        split <;> simp
    rcases hcat with h | ⟨c, hc, hct⟩
    · simpa [getPostCategory, h] using hbody
    · simpa [getPostCategory, hc, hct] using hbody
  · intro c hc hd
    simp [getCategoryDisplayText, hc, hd]

/-- Witness for C8: concrete instances of each clause of
`c8_category_resolution`. -/
theorem c8_category_resolution_witness :
    getPostCategory { category := some " tech " } = "tech" ∧
    getPostCategory { tags := some "career, rust" } = "career" ∧
    getPostCategory {} = "post" ∧
    getCategoryDisplayText (some "tech") = CategoryDisplay.text "Tech" ∧
    getCategoryDisplayText (some "myCat")
      = CategoryDisplay.text (titleCaseGeneric "myCat") := by
  refine ⟨?_, ?_, ?_, c8_category_resolution.2.2.2.1.1, ?_⟩
  · exact (c8_category_resolution.1 { category := some " tech " } " tech " rfl
      (by decide)).trans (by decide)
  · exact (c8_category_resolution.2.1 { tags := some "career, rust" } "career, rust"
      (Or.inl rfl) rfl (by decide) (by decide)).trans (by decide)
  · exact c8_category_resolution.2.2.1 {} (Or.inl rfl) (Or.inl rfl)
  · exact c8_category_resolution.2.2.2.2.1 "myCat" (by decide) (by decide)

/-- C9: the ghost-row filler is NOT idempotent.  On a container of width
1050px holding 5 regular cards (3 cards per row), the first call appends one
filler (6 children), but an immediate second call counts the 6 children
(filler included) BEFORE removing it, finds the row complete, and appends
nothing, leaving 5 children: the double call yields a different DOM than the
single call, contradicting the claim (and the removal step's evident
intent). -/
theorem c9_ghost_filler_not_idempotent :
    addGhostCards 1050 (List.replicate 5 (Node.regularCard {} none))
      = List.replicate 5 (Node.regularCard {} none) ++ [Node.ghostCard] ∧
    addGhostCards 1050 (addGhostCards 1050 (List.replicate 5 (Node.regularCard {} none)))
      = List.replicate 5 (Node.regularCard {} none) := by
  decide

/-- C10: the request built by `loadSearchResults` always carries an integer
page parameter at least 1 for every pair of (arbitrarily ill-typed) query and
page arguments, and carries the `search` parameter exactly when the coerced
query is non-empty.  (The normalization itself is total, so no input can make
these lines throw.) -/
theorem c10_search_request_normalized (query page : JSVal) :
    1 ≤ (buildSearchRequest query page).page ∧
    ((buildSearchRequest query page).searchParam.isSome ↔ coerceQuery query ≠ "") := by
  constructor
  · show 1 ≤ coercePage page
    cases page with
    | num q =>
      show (1 : ℤ) ≤ if q.den = 1 ∧ 1 ≤ q then q.num else 1
      split
      · next h =>
          have hq : 0 < q := lt_of_lt_of_le one_pos h.2
          have := Rat.num_pos.mpr hq
          omega
      · exact le_refl (1 : ℤ)
    | str s => exact le_refl (1 : ℤ)
    | boolean b => exact le_refl (1 : ℤ)
    | null => exact le_refl (1 : ℤ)
    | undef => exact le_refl (1 : ℤ)
  · show (if coerceQuery query != "" then some (encodeURIComponent (coerceQuery query))
        else none).isSome ↔ coerceQuery query ≠ ""
    by_cases h : coerceQuery query = "" <;> simp [h]

/-- C2 counterexample: after `clearSearch` the post list is empty and search
mode is off, yet the stale page-1 search response replaces the post list
with the stale search result — the handler performs no mode/page relevance
check, contradicting the claim. -/
theorem c2_counterexample :
    c2cleared.isSearchMode = false ∧
    c2cleared.postList = [] ∧
    c2stale.postList = [createRegularPost { title := some "Rust post" }] ∧
    c2stale.isSearchMode = false := by
  decide

/-- C2 (amended): the response handler of `loadSearchResults` performs NO
staleness check: in every state — in particular one where search has been
cleared — a resolving page-1 search response with a non-empty post array
unconditionally replaces the post list with those results.  The only use of
request-time data is the captured `page` argument selecting replace (page 1)
versus append (page > 1). -/
theorem c2_no_stale_guard (st : AppState) (req : Request) (data : PageResponse)
    (ps : List Post) (hpage : req.page = 1) (hbp : data.blog_posts = some ps)
    (hne : ps ≠ []) :
    (searchResolve st req (FetchOutcome.ok data)).postList
      = addGhostCards st.containerWidth (ps.map createRegularPost) := by
  simp [searchResolve, displaySearchResults, hpage, hbp, List.length_eq_zero, hne]

/-- Witness for C2: the amended no-stale-guard theorem at the concrete
cleared-search state of the counterexample scenario. -/
theorem c2_no_stale_guard_witness :
    (searchResolve c2cleared ⟨Stream.search, 1, "rust"⟩
        (FetchOutcome.ok { blog_posts := some [{ title := some "Rust post" }],
                           has_next := false, total_results := some 1 })).postList
      = addGhostCards c2cleared.containerWidth
          ([{ title := some "Rust post" }].map createRegularPost) := by
  exact c2_no_stale_guard c2cleared _ _ [{ title := some "Rust post" }] rfl rfl (by decide)

/-- C3 counterexample: after the `has_next=false` response for page 2 has
been processed, a subsequent `loadImages` call issues ANOTHER network fetch
for the same page 2 (two requests in the log, not one), refuting the claim
that no further fetch is performed; the paging state itself is unchanged. -/
theorem c3_counterexample :
    c3exhausted.page_num = 2 ∧
    c3exhausted.isLoading = false ∧
    (loadImagesStart c3exhausted).issued
      = [⟨Stream.listing, 2, ""⟩, ⟨Stream.listing, 2, ""⟩] := by
  decide

/-- C3 (amended): processing a `has_next=false` listing response for a page
greater than 1 leaves the paging state unchanged — `page_num` is not
incremented, the containers are untouched, `isLoading` is reset — but the
exhaustion is not recorded anywhere, so a subsequent `loadImages` call
issues a new fetch for the very same page instead of performing no fetch. -/
theorem c3_exhaustion_not_persisted (st : AppState) (data : PageResponse)
    (hload : st.isLoading = false) (hin : st.inFlight = [])
    (hpage : 1 < st.page_num) (hnext : data.has_next = false) :
    let st1 := loadImagesResolve (loadImagesStart st)
      ⟨Stream.listing, st.page_num, ""⟩ (FetchOutcome.ok data)
    st1.page_num = st.page_num ∧ st1.postList = st.postList ∧
    st1.featured = st.featured ∧ st1.isLoading = false ∧ st1.inFlight = [] ∧
    (loadImagesStart st1).issued
      = st.issued ++ [⟨Stream.listing, st.page_num, ""⟩,
                      ⟨Stream.listing, st.page_num, ""⟩] := by
  intro st1
  simp only [st1, loadImagesStart, hload, if_false, Bool.false_eq_true, issueRequest,
    loadImagesResolve, loadImagesFinally, hin, hnext, hpage]
  simp [List.erase_cons_head, hpage]

/-- Witness for C3: the amended theorem at the concrete page-2 state of the
counterexample scenario. -/
theorem c3_exhaustion_not_persisted_witness :
    let st1 := loadImagesResolve (loadImagesStart { initState 0 with page_num := 2 })
      ⟨Stream.listing, 2, ""⟩
      (FetchOutcome.ok { blog_posts := some [], has_next := false })
    st1.page_num = 2 ∧ st1.postList = [] ∧ st1.featured = [] ∧
    st1.isLoading = false ∧ st1.inFlight = [] ∧
    (loadImagesStart st1).issued
      = [] ++ [⟨Stream.listing, 2, ""⟩, ⟨Stream.listing, 2, ""⟩] := by
  exact c3_exhaustion_not_persisted { initState 0 with page_num := 2 }
    { blog_posts := some [], has_next := false } rfl rfl (by decide) rfl

/-- C4 counterexample: a page-2 response whose `blog_posts` is not an array —
claimed to raise the error banner and leave `page_num` unchanged at 2 — is
silently treated as an empty page: `page_num` advances to 3 and no banner is
appended. -/
theorem c4_counterexample :
    c4malformed.page_num = 3 ∧ c4malformed.postList = [] := by
  decide

/-- C4 (amended): on a failed fetch (non-2xx status, network error or JSON
parse failure) `loadImages` appends the recoverable error banner, leaves
`page_num` unchanged, and resets `isLoading`; but a 2xx response whose
`blog_posts` is NOT an array is silently skipped — no banner, and `page_num`
is incremented past it (here with `has_next` true).  `isLoading` is reset to
false on every path by the `finally` block. -/
theorem c4_failure_paths :
    (∀ (st : AppState) (req : Request),
      (loadImagesResolve st req FetchOutcome.error).postList
        = st.postList
          ++ [Node.errorBanner "Error loading blog posts. Please try refreshing the page."] ∧
      (loadImagesResolve st req FetchOutcome.error).page_num = st.page_num ∧
      (loadImagesResolve st req FetchOutcome.error).isLoading = false) ∧
    (∀ (st : AppState) (req : Request) (tr : Option Nat),
      (loadImagesResolve st req
        (FetchOutcome.ok { blog_posts := none, has_next := true, total_results := tr })).page_num
        = st.page_num + 1 ∧
      (loadImagesResolve st req
        (FetchOutcome.ok { blog_posts := none, has_next := true, total_results := tr })).postList
        = st.postList) ∧
    (∀ (st : AppState) (req : Request) (outcome : FetchOutcome),
      (loadImagesResolve st req outcome).isLoading = false) := by
  refine ⟨?_, ?_, ?_⟩
  · intro st req
    simp [loadImagesResolve, loadImagesFinally]
  · intro st req tr
    simp [loadImagesResolve, loadImagesFinally, renderListing, hasPosts]
  · intro st req outcome
    cases outcome with
    | error => simp [loadImagesResolve, loadImagesFinally]
    | ok data =>
      simp only [loadImagesResolve]
      split <;> simp [loadImagesFinally]

/-- Regular cards are never ghost cards. -/
theorem createRegularPost_not_ghost (p : Post) : (createRegularPost p).isGhost = false := by
  unfold createRegularPost
  split <;> rfl

/-- Filtering out ghosts is idempotent. -/
theorem filter_ghost_idem (l : List Node) :
    (l.filter (fun n => !n.isGhost)).filter (fun n => !n.isGhost)
      = l.filter (fun n => !n.isGhost) := by
  induction l with
  | nil => rfl
  | cons a t ih => cases a <;> simp [List.filter, Node.isGhost, ih]

/-- A run of ghost cards filters away entirely. -/
theorem filter_ghost_replicate (n : Nat) :
    (List.replicate n Node.ghostCard).filter (fun m => !m.isGhost) = [] := by
  induction n with
  | zero => rfl
  | succ k ih => simp [List.replicate, List.filter, Node.isGhost, ih]

/-- The ghost-card pass never changes the non-ghost cards of a container. -/
theorem addGhostCards_filter (w : Nat) (l : List Node) :
    (addGhostCards w l).filter (fun n => !n.isGhost)
      = l.filter (fun n => !n.isGhost) := by
  by_cases h0 : w = 0
  · simp [addGhostCards, h0, filter_ghost_idem]
  · by_cases h1 : w / 350 ≤ 1
    · simp [addGhostCards, h0, h1, filter_ghost_idem]
    · by_cases h2 : l.length % (w / 350) = 0
      · simp [addGhostCards, h0, h1, h2, filter_ghost_idem]
      · simp [addGhostCards, h0, h1, h2, List.filter_append,
          filter_ghost_idem, filter_ghost_replicate]

/-- C5: a page-1 listing response of 5 posts with `has_next = true` renders
exactly the first three as featured cards at indices 0, 1, 2, appends the
remaining two as regular cards to the (previously empty) post list, and
advances `page_num` to 2.  The image policy of the featured cards: index 0
takes `thumbnail || image`, indices 1 and 2 take
`thumbnail_small || thumbnail || image`, whenever `thumbnail || image` is
truthy. -/
theorem c5_first_page_split (st : AppState) (p1 p2 p3 p4 p5 : Post)
    (hpage : st.page_num = 1) (hload : st.isLoading = false)
    (hpl : st.postList = []) :
    let final := loadImagesResolve (loadImagesStart st)
      ⟨Stream.listing, st.page_num, ""⟩
      (FetchOutcome.ok { blog_posts := some [p1, p2, p3, p4, p5], has_next := true })
    final.featured
      = [createFeaturedPost p1 0, createFeaturedPost p2 1, createFeaturedPost p3 2] ∧
    final.postList.filter (fun n => !n.isGhost)
      = [createRegularPost p4, createRegularPost p5] ∧
    final.page_num = 2 ∧ final.isLoading = false ∧
    (strTruthy (jsOr p1.thumbnail p1.image) →
      createFeaturedPost p1 0 = Node.featuredCard p1 (jsOr p1.thumbnail p1.image)) ∧
    (strTruthy (jsOr p2.thumbnail p2.image) →
      createFeaturedPost p2 1
        = Node.featuredCard p2 (jsOr p2.thumbnail_small (jsOr p2.thumbnail p2.image))) ∧
    (strTruthy (jsOr p3.thumbnail p3.image) →
      createFeaturedPost p3 2
        = Node.featuredCard p3 (jsOr p3.thumbnail_small (jsOr p3.thumbnail p3.image))) := by
  intro final
  have hrender : final.featured
        = [createFeaturedPost p1 0, createFeaturedPost p2 1, createFeaturedPost p3 2] ∧
      final.postList
        = addGhostCards st.containerWidth
            [createRegularPost p4, createRegularPost p5] ∧
      final.page_num = 2 ∧ final.isLoading = false := by
    simp only [final, loadImagesStart, hload, Bool.false_eq_true, if_false, issueRequest,
      loadImagesResolve, loadImagesFinally, renderListing, hasPosts, hpage, hpl]
    norm_num [renderFeaturedFrom]
  refine ⟨hrender.1, ?_, hrender.2.2.1, hrender.2.2.2, ?_, ?_, ?_⟩
  · rw [hrender.2.1, addGhostCards_filter]
    simp [List.filter, createRegularPost_not_ghost]
  · intro h
    simp [createFeaturedPost, h]
  · intro h
    simp [createFeaturedPost, h]
  · intro h
    simp [createFeaturedPost, h]

/-- Witness for C5: the first-page split at a concrete state of width 700
and five concrete posts (one with a full-size thumbnail, one with both
thumbnail sizes, one with only a raw image, two with no imagery). -/
theorem c5_first_page_split_witness :
    let p1 : Post := { title := some "a", thumbnail := some "a-full.jpg" }
    let p2 : Post := { title := some "b", thumbnail_small := some "b-small.jpg",
                       thumbnail := some "b-full.jpg" }
    let p3 : Post := { title := some "c", image := some "c.jpg" }
    let p4 : Post := { title := some "d" }
    let p5 : Post := { title := some "e" }
    let final := loadImagesResolve (loadImagesStart (initState 700))
      ⟨Stream.listing, (initState 700).page_num, ""⟩
      (FetchOutcome.ok { blog_posts := some [p1, p2, p3, p4, p5], has_next := true })
    final.featured
      = [createFeaturedPost p1 0, createFeaturedPost p2 1, createFeaturedPost p3 2] ∧
    final.postList.filter (fun n => !n.isGhost)
      = [createRegularPost p4, createRegularPost p5] ∧
    final.page_num = 2 ∧ final.isLoading = false ∧
    (strTruthy (jsOr p1.thumbnail p1.image) →
      createFeaturedPost p1 0 = Node.featuredCard p1 (jsOr p1.thumbnail p1.image)) ∧
    (strTruthy (jsOr p2.thumbnail p2.image) →
      createFeaturedPost p2 1
        = Node.featuredCard p2 (jsOr p2.thumbnail_small (jsOr p2.thumbnail p2.image))) ∧
    (strTruthy (jsOr p3.thumbnail p3.image) →
      createFeaturedPost p3 2
        = Node.featuredCard p3 (jsOr p3.thumbnail_small (jsOr p3.thumbnail p3.image))) := by
  exact c5_first_page_split (initState 700) _ _ _ _ _ rfl rfl rfl

/-- C6 counterexample: `performSearch` on the whitespace-only query `"   "`
is NOT equivalent to clearing search — the code tests `query.length` without
trimming, so it ENTERS search mode and fires a search fetch, whereas
`clearSearch` leaves search mode off. -/
theorem c6_counterexample :
    (performSearch (initState 0) "   ").isSearchMode = true ∧
    (clearSearch (initState 0)).isSearchMode = false ∧
    (performSearch (initState 0) "   ").inFlight = [⟨Stream.search, 1, "   "⟩] := by
  decide

/-- C6 (amended): `performSearch` with the EMPTY query agrees with
`clearSearch` on the core paging/search state and the DOM reset-and-reload
(`page_num` 1, search mode off, query and tag cleared, featured and post
list emptied, the same listing reload issued), but unlike `clearSearch` it
leaves the `window.hasNext`/`window.currentPage` cursors, the search input
value and the section title untouched; and a whitespace-only query is not a
clear at all (see the counterexample). -/
theorem c6_empty_query_partial_clear (st : AppState) :
    coreView (performSearch st "") = coreView (clearSearch st) ∧
    (performSearch st "").windowHasNext = st.windowHasNext ∧
    (performSearch st "").windowCurrentPage = st.windowCurrentPage ∧
    (performSearch st "").searchInputValue = st.searchInputValue ∧
    (performSearch st "").sectionTitle = st.sectionTitle := by
  have hlen : ¬ (0 < ("" : String).length) := by decide
  cases h : st.isLoading <;>
    simp [performSearch, clearSearch, loadImagesStart, issueRequest, coreView, h, hlen]

/-- The page requested by the scroll handler and the auto-fill check is
always at least 1 (an undefined `window.currentPage` yields `NaN`, which the
normalization replaces by 1). -/
theorem nextSearchPage_pos (st : AppState) : 1 ≤ nextSearchPage st := by
  cases h : st.windowCurrentPage <;> simp [nextSearchPage, h]

/-- Rendering a listing response only touches the two containers: the
scheduling and paging bookkeeping fields pass through unchanged. -/
theorem renderListing_bookkeeping (st : AppState) (data : PageResponse) :
    (renderListing st data).pendingChecks = st.pendingChecks ∧
    (renderListing st data).isLoading = st.isLoading ∧
    (renderListing st data).page_num = st.page_num := by
  by_cases hp : st.page_num = 1
  · by_cases hq : hasPosts data
    · by_cases h2 : 3 < (data.blog_posts.getD []).length
      · simp [renderListing, hp, hq, h2]
      · simp [renderListing, hp, hq, h2]
    · simp [renderListing, hp, hq]
  · by_cases hq : 1 < st.page_num ∧ hasPosts data
    · simp [renderListing, hp, hq]
    · simp [renderListing, hp, hq]

/-- C7: every `loadImages` completion (its `finally` block) and every
successful `loadSearchResults` response schedules the content check
`contentCheckDelayMs = 100` ms later; the check body — run after its
`settleDelayMs = 500` ms settle timer with the measured document and window
heights — issues the next fetch of the stream matching the current mode
exactly when the no-scrollbar tolerance (`documentHeight ≤ windowHeight +
100`) holds, `window.hasNext` is truthy, and no fetch is in flight (next
search page `window.currentPage + 1` in search mode, else the next listing
page), and otherwise leaves the state untouched. -/
theorem c7_viewport_auto_fill :
    (∀ (st : AppState) (req : Request) (outcome : FetchOutcome),
      (loadImagesResolve st req outcome).pendingChecks
        = st.pendingChecks ++ [contentCheckDelayMs]) ∧
    (∀ (st : AppState) (req : Request) (data : PageResponse),
      (searchResolve st req (FetchOutcome.ok data)).pendingChecks
        = st.pendingChecks ++ [contentCheckDelayMs]) ∧
    contentCheckDelayMs = 100 ∧ settleDelayMs = 500 ∧
    (∀ (st : AppState) (dh wh : Nat),
      dh ≤ wh + 100 → st.windowHasNext = some true → st.isLoading = false →
      (st.isSearchMode = true →
        (checkIfMoreContentNeeded st dh wh).issued
          = st.issued ++ [⟨Stream.search, nextSearchPage st, st.currentSearchQuery⟩] ∧
        (checkIfMoreContentNeeded st dh wh).isLoading = true) ∧
      (st.isSearchMode = false →
        checkIfMoreContentNeeded st dh wh = loadImagesStart st ∧
        (checkIfMoreContentNeeded st dh wh).issued
          = st.issued ++ [⟨Stream.listing, st.page_num, ""⟩])) ∧
    (∀ (st : AppState) (dh wh : Nat),
      ¬(dh ≤ wh + 100 ∧ st.windowHasNext = some true ∧ st.isLoading = false) →
      checkIfMoreContentNeeded st dh wh = st) := by
  refine ⟨?_, ?_, rfl, rfl, ?_, ?_⟩
  · intro st req outcome
    cases outcome with
    | error => simp [loadImagesResolve, loadImagesFinally]
    | ok data =>
      simp only [loadImagesResolve]
      split
      · simp [loadImagesFinally]
      · have h := (renderListing_bookkeeping
          { st with inFlight := st.inFlight.erase req } data).1
        simp [loadImagesFinally, h]
  · intro st req data
    simp only [searchResolve]
    split
    · simp only [displaySearchResults]
      split <;> simp
    · simp [appendSearchResults]
  · intro st dh wh h1 h2 h3
    have hcl : ¬ nextSearchPage st < 1 := not_lt.mpr (nextSearchPage_pos st)
    constructor
    · intro hm
      simp [checkIfMoreContentNeeded, h1, h2, h3, hm,
        loadSearchResultsCall, issueRequest, hcl]
    · intro hm
      constructor
      · simp [checkIfMoreContentNeeded, h1, h2, h3, hm]
      · simp [checkIfMoreContentNeeded, h1, h2, h3, hm,
          loadImagesStart, issueRequest]
  · intro st dh wh h
    rw [checkIfMoreContentNeeded, if_neg]
    simpa [and_assoc, Bool.not_eq_true'] using h

/-- Witness for C7: the scheduling clauses and both branches of the check at
concrete states (a search-mode state on cursor page 3, a listing-mode state
on page 2, and a state with no known next page where the check is a
no-op). -/
theorem c7_viewport_auto_fill_witness :
    (loadImagesResolve (initState 0) ⟨Stream.listing, 1, ""⟩ FetchOutcome.error).pendingChecks
      = (initState 0).pendingChecks ++ [contentCheckDelayMs] ∧
    (checkIfMoreContentNeeded
        { initState 0 with isSearchMode := true, windowHasNext := some true,
                           windowCurrentPage := some 3, currentSearchQuery := "rust" }
        300 500).issued
      = (initState 0).issued ++ [⟨Stream.search, 4, "rust"⟩] ∧
    (checkIfMoreContentNeeded
        { initState 0 with page_num := 2, windowHasNext := some true } 300 500).issued
      = (initState 0).issued ++ [⟨Stream.listing, 2, ""⟩] ∧
    checkIfMoreContentNeeded (initState 0) 300 500 = initState 0 := by
  refine ⟨c7_viewport_auto_fill.1 (initState 0) ⟨Stream.listing, 1, ""⟩ FetchOutcome.error,
    ((c7_viewport_auto_fill.2.2.2.2.1
        { initState 0 with isSearchMode := true, windowHasNext := some true,
                           windowCurrentPage := some 3, currentSearchQuery := "rust" }
        300 500 (by norm_num) rfl rfl).1 rfl).1,
    ((c7_viewport_auto_fill.2.2.2.2.1
        { initState 0 with page_num := 2, windowHasNext := some true }
        300 500 (by norm_num) rfl rfl).2 rfl).2,
    c7_viewport_auto_fill.2.2.2.2.2 (initState 0) 300 500 (by simp [initState])⟩

end Blog
